import Mathlib

/-!
Verification of the file-mover service (`src/service.ts`).

The service has two core pieces:

* `moveFile(srcPath, destPath, retries = 3)` — attempts `fs.move` with
  `{ overwrite: true }`, logging its progress; on an `EBUSY` failure with
  retries remaining it logs a warning, sleeps 1000 ms, and recurses with
  `retries - 1`; any other failure (or retry exhaustion) logs an error and
  returns.  All errors are caught, so the returned promise always resolves.
* `startWatching(srcDir, destDir)` — builds a chokidar watcher with
  `{ persistent: true, ignoreInitial: true, usePolling: true, interval: 1000 }`,
  attaches an `add` handler that dispatches `moveFile(filePath,
  path.join(destDir, path.basename(filePath)))` fire-and-forget, and an
  `error` handler that only logs.

The embedding below represents each run as a trace of observable events
(log lines, sleeps, filesystem move calls, dispatches, process exits); the
outcome of each filesystem move attempt is supplied by an oracle
`fsMove : Nat → Except FsError Unit` indexed by the attempt number.
-/

namespace FileMover

/-- Severity levels of the winston logger used by the service. -/
inductive LogLevel where
  | info
  | warn
  | error
deriving DecidableEq, Repr

/-- One structured log line: severity plus rendered message. -/
structure LogLine where
  level : LogLevel
  message : String
deriving DecidableEq, Repr

/-- A Node.js filesystem error: the `code` property (e.g. `"EBUSY"`,
`"EACCES"`, `"ENOENT"`) and the human-readable `message`. -/
structure FsError where
  code : String
  message : String
deriving DecidableEq, Repr

/-- Observable events of a run of the service:
* `log` — a line emitted through the winston logger;
* `sleep` — an awaited `setTimeout` delay, in milliseconds;
* `fsMoveCall` — an invocation of `fs.move(src, dest, { overwrite })`
  together with its outcome (`none` = the move succeeded and took effect,
  `some e` = the call threw `e` and was a filesystem no-op);
* `dispatchMove` — a fire-and-forget `moveFile(src, dest)` dispatch from the
  watcher's `add` handler;
* `processExit` — a `process.exit(code)` call;
* `stopWatcher` — a teardown of the chokidar watcher (never emitted by the
  service; present so that its absence is expressible). -/
inductive Event where
  | log (l : LogLine)
  | sleep (ms : Nat)
  | fsMoveCall (src dest : String) (overwrite : Bool) (outcome : Option FsError)
  | dispatchMove (src dest : String)
  | processExit (code : Nat)
  | stopWatcher
deriving DecidableEq, Repr

/-- Message of the `logger.info` line emitted before each move attempt. -/
def attemptMsg (srcPath destPath : String) : String :=
  s!"Attempting to move file from {srcPath} to {destPath}"

/-- Message of the `logger.info` line emitted after a successful move. -/
def successMsg (srcPath destPath : String) : String :=
  s!"File moved successfully from {srcPath} to {destPath}"

/-- Message of the `logger.warn` line emitted before a retry; `retries` is the
value of the counter before it is decremented, exactly as in the source. -/
def retryWarnMsg (retries : Nat) : String :=
  s!"File is in use. Retrying... ({retries} retries left)"

/-- Message of the terminal `logger.error` line of a failed move. -/
def moveErrorMsg (message : String) : String :=
  s!"Error moving file: {message}"

/-- Embedding of `moveFile(srcPath, destPath, retries)`.

`fsMove` is the oracle giving the outcome of each `fs.move` call, indexed by
the attempt number `attempt` (the first call of a top-level invocation has
`attempt = 0`): `none` means the move succeeded, `some e` that it threw `e`.
The result is the trace of events produced by the call together with the
resolution of the returned promise: `none` when the promise resolves (the
source function returns `undefined`), `some e` when it would reject with `e`.

Mirrors the source: log "Attempting…", call `fs.move` with
`{ overwrite: true }`; on success log "File moved successfully…"; on an error
with `retries > 0 && error.code === 'EBUSY'` log the warning (with the value
of the counter before decrement), await a 1000 ms timeout and recurse with
`retries - 1`; on any other error log the terminal error message.  The
condition `retries > 0` is rendered as the match on `retries`, so that
`r + 1` is the counter before decrement and `r` the decremented counter.
Every error is consumed by the `catch` block. -/
def moveFile (srcPath destPath : String) (fsMove : Nat → Option FsError) :
    Nat → Nat → List Event × Option FsError
  | attempt, retries =>
    let pre := [Event.log ⟨LogLevel.info, attemptMsg srcPath destPath⟩,
                Event.fsMoveCall srcPath destPath true (fsMove attempt)]
    match fsMove attempt with
    | none =>
        (pre ++ [Event.log ⟨LogLevel.info, successMsg srcPath destPath⟩], none)
    | some e =>
        match retries with
        | r + 1 =>
          if e.code = "EBUSY" then
            let rest := moveFile srcPath destPath fsMove (attempt + 1) r
            (pre ++ [Event.log ⟨LogLevel.warn, retryWarnMsg (r + 1)⟩, Event.sleep 1000]
                ++ rest.1, rest.2)
          else
            (pre ++ [Event.log ⟨LogLevel.error, moveErrorMsg e.message⟩], none)
        | 0 =>
            (pre ++ [Event.log ⟨LogLevel.error, moveErrorMsg e.message⟩], none)

/-- Specialisation of `moveFile` to the source's default `retries = 3`,
starting at the first attempt, as invoked by the watcher's `add` handler. -/
def moveFileDefault (srcPath destPath : String)
    (fsMove : Nat → Option FsError) : List Event × Option FsError :=
  moveFile srcPath destPath fsMove 0 3

/-- The log lines contained in a trace, in order. -/
def logsOf (t : List Event) : List LogLine :=
  t.filterMap fun ev =>
    match ev with
    | Event.log l => some l
    | _ => none

/-- Number of log lines of a given severity in a trace. -/
def countLevel (t : List Event) (lvl : LogLevel) : Nat :=
  ((logsOf t).filter fun l => decide (l.level = lvl)).length

/-- Number of `fs.move` invocations in a trace. -/
def countAttempts (t : List Event) : Nat :=
  (t.filter fun ev =>
    match ev with
    | Event.fsMoveCall _ _ _ _ => true
    | _ => false).length

/-- Number of awaited `setTimeout` delays of a given length in a trace. -/
def countSleeps (t : List Event) (ms : Nat) : Nat :=
  (t.filter fun ev => decide (ev = Event.sleep ms)).length

/-- Number of `fs.move` invocations in a trace whose `overwrite` option is
not set; the service always sets it, so this is provably `0`. -/
def countNonOverwriteCalls (t : List Event) : Nat :=
  (t.filter fun ev =>
    match ev with
    | Event.fsMoveCall _ _ false _ => true
    | _ => false).length

/-- Number of `fs.move` invocations in a trace that succeeded, i.e. whose
outcome is `none`; each such call is one effective filesystem mutation. -/
def countEffectiveMoves (t : List Event) : Nat :=
  (t.filter fun ev =>
    match ev with
    | Event.fsMoveCall _ _ _ none => true
    | _ => false).length

/-- Number of `process.exit` calls and watcher teardowns in a trace. -/
def countExitsAndStops (t : List Event) : Nat :=
  (t.filter fun ev =>
    match ev with
    | Event.processExit _ => true
    | Event.stopWatcher => true
    | _ => false).length

/-! ### Watcher -/

/-- The option object passed to `chokidar.watch` in `startWatching`. -/
structure WatcherOptions where
  persistent : Bool
  ignoreInitial : Bool
  usePolling : Bool
  interval : Nat
deriving DecidableEq, Repr

/-- Embedding of Node's `path.basename`: the portion of the path after its
last `/` separator (the whole string when it has no separator). -/
def basename (p : String) : String :=
  String.mk ((p.data.reverse.takeWhile fun c => c != '/').reverse)

/-- Embedding of `path.join(dir, name)` for a directory path and a bare file
name, the only shape the service joins: the two joined with one separator. -/
def joinPath (dir name : String) : String :=
  dir ++ "/" ++ name

/-- Message of the `logger.info` line emitted when a new file is detected. -/
def detectedMsg (fileName : String) : String :=
  s!"Detected new file: {fileName}"

/-- Message of the `logger.error` line of the watcher's `error` handler. -/
def watcherErrorMsg (message : String) : String :=
  s!"Watcher error: {message}"

/-- Message of the `logger.info` line emitted when watching starts. -/
def watchingMsg (srcDir : String) : String :=
  s!"Watching directory: {srcDir}"

/-- Embedding of the `add` handler registered in `startWatching`: compute
`fileName = path.basename(filePath)` and `destPath = path.join(destDir,
fileName)`, log the detection, and dispatch `moveFile(filePath, destPath)`
fire-and-forget (the handler does not await it). -/
def addHandler (destDir filePath : String) : List Event :=
  let fileName := basename filePath
  let destPath := joinPath destDir fileName
  [Event.log ⟨LogLevel.info, detectedMsg fileName⟩,
   Event.dispatchMove filePath destPath]

/-- Embedding of the `error` handler registered in `startWatching`: it logs
the error message at `error` level and does nothing else. -/
def watcherErrorHandler (e : FsError) : List Event :=
  [Event.log ⟨LogLevel.error, watcherErrorMsg e.message⟩]

/-- The watcher as configured by `startWatching`: the watched path, the
chokidar options, the two registered handlers, and the events `startWatching`
itself produces while setting up. -/
structure WatcherSetup where
  watchPath : String
  options : WatcherOptions
  onAdd : String → List Event
  onError : FsError → List Event
  startupEvents : List Event

/-- Embedding of `startWatching(srcDir, destDir)`.  It unconditionally builds
the chokidar watcher over `srcDir` with `{ persistent: true, ignoreInitial:
true, usePolling: true, interval: 1000 }`, registers the `add` and `error`
handlers, and logs the watching-started line; it performs no filesystem
check of any kind (its behaviour is a function of the two path strings
only), and it never calls `process.exit`. -/
def startWatching (srcDir destDir : String) : WatcherSetup where
  watchPath := srcDir
  options := { persistent := true, ignoreInitial := true,
               usePolling := true, interval := 1000 }
  onAdd := fun filePath => addHandler destDir filePath
  onError := watcherErrorHandler
  startupEvents := [Event.log ⟨LogLevel.info, watchingMsg srcDir⟩]

/-- Model of chokidar's add-event emission over a whole run, from its
documented contract: `initialFiles` are the file paths already present in the
watched directory when watching begins, `appearedLater` those that appear
afterwards, in detection order.  With `ignoreInitial` set the initial files
are suppressed and only the later ones are reported; otherwise the initial
files are reported as well.  Polling (`usePolling`/`interval`) bounds
detection latency but does not change which add events fire. -/
def emittedAddEvents (opts : WatcherOptions)
    (initialFiles appearedLater : List String) : List String :=
  (if opts.ignoreInitial then [] else initialFiles) ++ appearedLater

/-- All events produced by the `add` handler over a run of the watcher: the
handler's events for each emitted add event, in order. -/
def addHandlerRun (setup : WatcherSetup)
    (initialFiles appearedLater : List String) : List Event :=
  ((emittedAddEvents setup.options initialFiles appearedLater).map setup.onAdd).flatten

/-! ### Model filesystem and the move primitive -/

/-- A model filesystem: an association list from absolute path to file
content; the first entry for a path is its content. -/
abbrev FsState := List (String × String)

/-- Content of the file at `p`, if any. -/
def lookupFs (fs : FsState) (p : String) : Option String :=
  match fs.find? fun kv => kv.1 == p with
  | some kv => some kv.2
  | none => none

/-- The filesystem with every entry at `p` removed. -/
def removeFs (fs : FsState) (p : String) : FsState :=
  fs.filter fun kv => kv.1 != p

/-- The filesystem with the file at `p` set to `content`. -/
def setFs (fs : FsState) (p content : String) : FsState :=
  (p, content) :: removeFs fs p

/-- Model of fs-extra's `move(src, dest, { overwrite })` on the model
filesystem, from its documented contract: it throws `ENOENT` when the source
does not exist; it throws `EEXIST` ("dest already exists") when the
destination exists and `overwrite` is not set; otherwise it removes the
source entry and writes its content at the destination, replacing any
pre-existing destination file. -/
def fsMoveModel (fs : FsState) (src dest : String) (overwrite : Bool) :
    Except FsError FsState :=
  match lookupFs fs src with
  | none => Except.error ⟨"ENOENT", s!"no such file or directory: {src}"⟩
  | some content =>
      if overwrite = false ∧ (lookupFs fs dest).isSome then
        Except.error ⟨"EEXIST", s!"dest already exists: {dest}"⟩
      else
        Except.ok (setFs (removeFs fs src) dest content)

/-- Whether an event is one of the two terminal report lines of a move from
`src` to `dest`: the success `info` line, or a terminal failure `error`
line. -/
def isTerminalReport (src dest : String) (ev : Event) : Prop :=
  ev = Event.log ⟨LogLevel.info, successMsg src dest⟩ ∨
  ∃ m, ev = Event.log ⟨LogLevel.error, moveErrorMsg m⟩

/-! ### Concrete oracles and errors, used by the witnesses -/

/-- The busy error the retry classification keys on. -/
def busyError : FsError :=
  ⟨"EBUSY", "EBUSY: resource busy or locked"⟩

/-- A permission-denied error, a representative non-busy failure. -/
def deniedError : FsError :=
  ⟨"EACCES", "EACCES: permission denied"⟩

/-- Oracle of a file that is busy on every attempt. -/
def alwaysBusyOracle : Nat → Option FsError := fun _ => some busyError

/-- Oracle of a move that succeeds on the first attempt. -/
def alwaysOkOracle : Nat → Option FsError := fun _ => none

/-- Oracle of a move that is denied on every attempt. -/
def alwaysDeniedOracle : Nat → Option FsError := fun _ => some deniedError

/-- Oracle of a file that is busy on the first two attempts and free from the
third attempt on. -/
def busyTwiceOracle : Nat → Option FsError :=
  fun i => if i < 2 then some busyError else none

/-! ### Helper lemmas -/

/-- Every `moveFile` call produces at least one event. -/
theorem moveFile_trace_ne_nil (src dest : String) (f : Nat → Option FsError)
    (attempt retries : Nat) : (moveFile src dest f attempt retries).1 ≠ [] := by
  rw [moveFile]
  cases f attempt with
  | none => simp
  | some e =>
    cases retries with
    | zero => simp
    | succ n =>
      by_cases h : e.code = "EBUSY" <;> simp [h]

/-- Every `fs.move` call made by `moveFile`, at any retry depth, passes the
`overwrite` option. -/
theorem moveFile_always_overwrites (src dest : String)
    (f : Nat → Option FsError) (attempt retries : Nat) :
    countNonOverwriteCalls (moveFile src dest f attempt retries).1 = 0 := by
  induction retries generalizing attempt with
  | zero =>
    rw [moveFile]
    cases f attempt <;> simp [countNonOverwriteCalls]
  | succ n ih =>
    rw [moveFile]
    cases hf : f attempt with
    | none => simp [countNonOverwriteCalls]
    | some e =>
      by_cases h : e.code = "EBUSY"
      · simpa [h, countNonOverwriteCalls, List.filter_append] using ih (attempt + 1)
      · simp [h, countNonOverwriteCalls]

/-- Taking characters up to the first separator of the concatenation of a
separator-free prefix, a separator, and a tail yields exactly the prefix. -/
theorem takeWhile_append_sep (l₁ l₂ : List Char) (h : ∀ c ∈ l₁, c ≠ '/') :
    (l₁ ++ '/' :: l₂).takeWhile (fun c => c != '/') = l₁ := by
  induction l₁ with
  | nil => simp
  | cons c cs ih =>
    have hc : c ≠ '/' := h c (List.mem_cons_self _ _)
    simp [List.takeWhile_cons, hc,
      ih fun x hx => h x (List.mem_cons_of_mem _ hx)]

/-- Joining any directory path with a separator-free file name and taking the
base name gives back the file name: subdirectory structure is flattened. -/
theorem basename_joinPath (dir name : String) (h : ∀ c ∈ name.data, c ≠ '/') :
    basename (joinPath dir name) = name := by
  unfold basename joinPath
  have hd : (dir ++ "/" ++ name).data = dir.data ++ '/' :: name.data := by
    simp [String.data_append]
  rw [hd, List.reverse_append, List.reverse_cons, List.append_assoc,
    List.singleton_append]
  rw [takeWhile_append_sep _ _ (by intro c hc; exact h c (List.mem_reverse.mp hc))]
  rw [List.reverse_reverse]

/-- Looking up the path just written by `setFs` yields the written content. -/
theorem lookupFs_setFs (fs : FsState) (p c : String) :
    lookupFs (setFs fs p c) p = some c := by
  simp [setFs, lookupFs, List.find?]

/-! ### The claims -/

/-- C9: for every source path, destination path, oracle of attempt outcomes,
attempt index and retry budget, the promise returned by `moveFile` resolves
(`none`) and never rejects: every error raised by an attempt — busy or
otherwise — is consumed inside `moveFile`, so the fire-and-forget dispatch
from the `add` handler can never produce an unhandled rejection. -/
theorem c9_promise_always_resolves (src dest : String)
    (f : Nat → Option FsError) (attempt retries : Nat) :
    (moveFile src dest f attempt retries).2 = none := by
  induction retries generalizing attempt with
  | zero =>
    rw [moveFile]
    cases f attempt <;> simp
  | succ n ih =>
    rw [moveFile]
    cases hf : f attempt with
    | none => simp
    | some e =>
      by_cases h : e.code = "EBUSY"
      · simp [h, ih]
      · simp [h]

/-- C1: when an attempt fails with an error whose code is `EBUSY` and the
retry budget is positive, `moveFile` logs one `warn` line, sleeps a constant
1000 ms, and re-attempts with the budget decremented by one; when the error
code is anything else, or the budget is zero, it instead logs the terminal
`error` line and stops — the busy classification and only it triggers a
retry. -/
theorem c1_ebusy_triggers_fixed_backoff_retry (src dest : String)
    (f : Nat → Option FsError) (attempt retries : Nat) (e : FsError)
    (hf : f attempt = some e) :
    (0 < retries → e.code = "EBUSY" →
      moveFile src dest f attempt retries =
        ([Event.log ⟨LogLevel.info, attemptMsg src dest⟩,
          Event.fsMoveCall src dest true (some e),
          Event.log ⟨LogLevel.warn, retryWarnMsg retries⟩,
          Event.sleep 1000]
          ++ (moveFile src dest f (attempt + 1) (retries - 1)).1,
         (moveFile src dest f (attempt + 1) (retries - 1)).2))
    ∧ (e.code ≠ "EBUSY" →
      moveFile src dest f attempt retries =
        ([Event.log ⟨LogLevel.info, attemptMsg src dest⟩,
          Event.fsMoveCall src dest true (some e),
          Event.log ⟨LogLevel.error, moveErrorMsg e.message⟩], none))
    ∧ (retries = 0 →
      moveFile src dest f attempt retries =
        ([Event.log ⟨LogLevel.info, attemptMsg src dest⟩,
          Event.fsMoveCall src dest true (some e),
          Event.log ⟨LogLevel.error, moveErrorMsg e.message⟩], none)) := by
  refine ⟨?_, ?_, ?_⟩
  · intro hr hcode
    cases retries with
    | zero => omega
    | succ n =>
      rw [moveFile]
      simp [hf, hcode]
  · intro hcode
    cases retries with
    | zero =>
      rw [moveFile]
      simp [hf]
    | succ n =>
      rw [moveFile]
      simp [hf, hcode]
  · intro h0
    subst h0
    rw [moveFile]
    simp [hf]

/-- C1, witness: a concrete busy first attempt with budget 3 produces the
warn line, the 1000 ms sleep, and the recursive re-attempt with budget 2. -/
theorem c1_ebusy_triggers_fixed_backoff_retry_witness :
    alwaysBusyOracle 0 = some busyError
    ∧ moveFile "/watched/report.txt" "/dest/report.txt" alwaysBusyOracle 0 3 =
        ([Event.log ⟨LogLevel.info,
            attemptMsg "/watched/report.txt" "/dest/report.txt"⟩,
          Event.fsMoveCall "/watched/report.txt" "/dest/report.txt" true
            (some busyError),
          Event.log ⟨LogLevel.warn, retryWarnMsg 3⟩,
          Event.sleep 1000]
          ++ (moveFile "/watched/report.txt" "/dest/report.txt"
                alwaysBusyOracle 1 2).1,
         (moveFile "/watched/report.txt" "/dest/report.txt"
            alwaysBusyOracle 1 2).2) :=
  ⟨rfl,
   (c1_ebusy_triggers_fixed_backoff_retry "/watched/report.txt"
      "/dest/report.txt" alwaysBusyOracle 0 3 busyError rfl).1
     (by decide) rfl⟩

/-- C2: a move invocation whose first attempt fails with a non-busy error is
abandoned immediately, for any retry budget: the trace is exactly the attempt
`info` line, the single `fs.move` call, and one terminal `error` line — so
exactly one `error` line, zero `warn` lines, no retry attempt — and the
promise resolves, propagating nothing beyond the log. -/
theorem c2_nonbusy_abandons_immediately (src dest : String)
    (f : Nat → Option FsError) (retries : Nat) (e : FsError)
    (hf : f 0 = some e) (hcode : e.code ≠ "EBUSY") :
    moveFile src dest f 0 retries =
      ([Event.log ⟨LogLevel.info, attemptMsg src dest⟩,
        Event.fsMoveCall src dest true (some e),
        Event.log ⟨LogLevel.error, moveErrorMsg e.message⟩], none)
    ∧ countLevel (moveFile src dest f 0 retries).1 LogLevel.error = 1
    ∧ countLevel (moveFile src dest f 0 retries).1 LogLevel.warn = 0
    ∧ countAttempts (moveFile src dest f 0 retries).1 = 1
    ∧ (moveFile src dest f 0 retries).2 = none := by
  have he : moveFile src dest f 0 retries =
      ([Event.log ⟨LogLevel.info, attemptMsg src dest⟩,
        Event.fsMoveCall src dest true (some e),
        Event.log ⟨LogLevel.error, moveErrorMsg e.message⟩], none) := by
    cases retries with
    | zero =>
      rw [moveFile]
      simp [hf]
    | succ n =>
      rw [moveFile]
      simp [hf, hcode]
  refine ⟨he, ?_, ?_, ?_, ?_⟩ <;> rw [he] <;> rfl

/-- C2, witness: a concrete permission-denied first attempt with the default
budget 3 produces one `error` line, no `warn` line, one attempt, and a
resolved promise. -/
theorem c2_nonbusy_abandons_immediately_witness :
    alwaysDeniedOracle 0 = some deniedError
    ∧ deniedError.code ≠ "EBUSY"
    ∧ moveFile "/watched/report.txt" "/dest/report.txt" alwaysDeniedOracle 0 3 =
        ([Event.log ⟨LogLevel.info,
            attemptMsg "/watched/report.txt" "/dest/report.txt"⟩,
          Event.fsMoveCall "/watched/report.txt" "/dest/report.txt" true
            (some deniedError),
          Event.log ⟨LogLevel.error, moveErrorMsg deniedError.message⟩], none)
    ∧ countAttempts (moveFile "/watched/report.txt" "/dest/report.txt"
        alwaysDeniedOracle 0 3).1 = 1 :=
  ⟨rfl, by decide,
   (c2_nonbusy_abandons_immediately "/watched/report.txt" "/dest/report.txt"
      alwaysDeniedOracle 3 deniedError rfl (by decide)).1,
   (c2_nonbusy_abandons_immediately "/watched/report.txt" "/dest/report.txt"
      alwaysDeniedOracle 3 deniedError rfl (by decide)).2.2.2.1⟩

/-- C3: with the default budget of 3 retries and every attempt failing busy,
`moveFile` makes exactly 4 = maxRetries + 1 attempts and stops: the trace is
closed, with 3 `warn` lines (one per configured retry), exactly one terminal
`error` line, 3 backoff sleeps, and zero effective filesystem moves — the
source file is left in place. -/
theorem c3_retry_exhaustion_default (src dest : String)
    (f : Nat → Option FsError) (e : FsError)
    (hcode : e.code = "EBUSY") (hf : ∀ i, f i = some e) :
    moveFileDefault src dest f =
      ([Event.log ⟨LogLevel.info, attemptMsg src dest⟩,
        Event.fsMoveCall src dest true (some e),
        Event.log ⟨LogLevel.warn, retryWarnMsg 3⟩, Event.sleep 1000,
        Event.log ⟨LogLevel.info, attemptMsg src dest⟩,
        Event.fsMoveCall src dest true (some e),
        Event.log ⟨LogLevel.warn, retryWarnMsg 2⟩, Event.sleep 1000,
        Event.log ⟨LogLevel.info, attemptMsg src dest⟩,
        Event.fsMoveCall src dest true (some e),
        Event.log ⟨LogLevel.warn, retryWarnMsg 1⟩, Event.sleep 1000,
        Event.log ⟨LogLevel.info, attemptMsg src dest⟩,
        Event.fsMoveCall src dest true (some e),
        Event.log ⟨LogLevel.error, moveErrorMsg e.message⟩], none)
    ∧ countAttempts (moveFileDefault src dest f).1 = 4
    ∧ countLevel (moveFileDefault src dest f).1 LogLevel.warn = 3
    ∧ countLevel (moveFileDefault src dest f).1 LogLevel.error = 1
    ∧ countSleeps (moveFileDefault src dest f).1 1000 = 3
    ∧ countEffectiveMoves (moveFileDefault src dest f).1 = 0 := by
  have he : moveFileDefault src dest f =
      ([Event.log ⟨LogLevel.info, attemptMsg src dest⟩,
        Event.fsMoveCall src dest true (some e),
        Event.log ⟨LogLevel.warn, retryWarnMsg 3⟩, Event.sleep 1000,
        Event.log ⟨LogLevel.info, attemptMsg src dest⟩,
        Event.fsMoveCall src dest true (some e),
        Event.log ⟨LogLevel.warn, retryWarnMsg 2⟩, Event.sleep 1000,
        Event.log ⟨LogLevel.info, attemptMsg src dest⟩,
        Event.fsMoveCall src dest true (some e),
        Event.log ⟨LogLevel.warn, retryWarnMsg 1⟩, Event.sleep 1000,
        Event.log ⟨LogLevel.info, attemptMsg src dest⟩,
        Event.fsMoveCall src dest true (some e),
        Event.log ⟨LogLevel.error, moveErrorMsg e.message⟩], none) := by
    simp [moveFileDefault, moveFile, hf, hcode]
  refine ⟨he, ?_, ?_, ?_, ?_, ?_⟩ <;> rw [he] <;> rfl

/-- C3, witness: a concrete perpetually-busy file under the default budget
yields 4 attempts, 3 `warn` lines, 1 `error` line, and no effective move. -/
theorem c3_retry_exhaustion_default_witness :
    busyError.code = "EBUSY"
    ∧ countAttempts (moveFileDefault "/watched/report.txt" "/dest/report.txt"
        alwaysBusyOracle).1 = 4
    ∧ countLevel (moveFileDefault "/watched/report.txt" "/dest/report.txt"
        alwaysBusyOracle).1 LogLevel.warn = 3
    ∧ countLevel (moveFileDefault "/watched/report.txt" "/dest/report.txt"
        alwaysBusyOracle).1 LogLevel.error = 1
    ∧ countEffectiveMoves (moveFileDefault "/watched/report.txt"
        "/dest/report.txt" alwaysBusyOracle).1 = 0 :=
  ⟨rfl,
   (c3_retry_exhaustion_default "/watched/report.txt" "/dest/report.txt"
      alwaysBusyOracle busyError rfl fun _ => rfl).2.1,
   (c3_retry_exhaustion_default "/watched/report.txt" "/dest/report.txt"
      alwaysBusyOracle busyError rfl fun _ => rfl).2.2.1,
   (c3_retry_exhaustion_default "/watched/report.txt" "/dest/report.txt"
      alwaysBusyOracle busyError rfl fun _ => rfl).2.2.2.1,
   (c3_retry_exhaustion_default "/watched/report.txt" "/dest/report.txt"
      alwaysBusyOracle busyError rfl fun _ => rfl).2.2.2.2.2⟩

/-- C4: every `fs.move` call issued by `moveFile` has the `overwrite` option
set, and the move primitive with `overwrite` set succeeds on a pre-existing
destination file — it raises no destination-exists (`EEXIST`) error, and
afterwards the destination holds the source's content; when the first
attempt succeeds, the trace contains exactly one `fs.move` call and exactly
one effective filesystem move. -/
theorem c4_unconditional_overwrite (fs : FsState)
    (src dest content destContent : String)
    (hsrc : lookupFs fs src = some content)
    (hdest : lookupFs fs dest = some destContent)
    (f : Nat → Option FsError) (attempt retries : Nat) :
    fsMoveModel fs src dest true =
      Except.ok (setFs (removeFs fs src) dest content)
    ∧ lookupFs (setFs (removeFs fs src) dest content) dest = some content
    ∧ countNonOverwriteCalls (moveFile src dest f attempt retries).1 = 0
    ∧ (f attempt = none →
        moveFile src dest f attempt retries =
          ([Event.log ⟨LogLevel.info, attemptMsg src dest⟩,
            Event.fsMoveCall src dest true none,
            Event.log ⟨LogLevel.info, successMsg src dest⟩], none)
        ∧ countAttempts (moveFile src dest f attempt retries).1 = 1
        ∧ countEffectiveMoves (moveFile src dest f attempt retries).1 = 1) := by
  refine ⟨?_, lookupFs_setFs _ _ _, moveFile_always_overwrites _ _ _ _ _, ?_⟩
  · simp [fsMoveModel, hsrc]
  · intro hok
    have he : moveFile src dest f attempt retries =
        ([Event.log ⟨LogLevel.info, attemptMsg src dest⟩,
          Event.fsMoveCall src dest true none,
          Event.log ⟨LogLevel.info, successMsg src dest⟩], none) := by
      rw [moveFile]
      simp [hok]
    exact ⟨he, by rw [he]; rfl, by rw [he]; rfl⟩

/-- C4, witness: on a concrete filesystem where the destination already
holds a file, the overwriting move succeeds with the destination replaced,
and a first-attempt-success trace has exactly one call. -/
theorem c4_unconditional_overwrite_witness :
    lookupFs [("/watched/report.txt", "new"), ("/dest/report.txt", "old")]
      "/watched/report.txt" = some "new"
    ∧ lookupFs [("/watched/report.txt", "new"), ("/dest/report.txt", "old")]
      "/dest/report.txt" = some "old"
    ∧ fsMoveModel [("/watched/report.txt", "new"), ("/dest/report.txt", "old")]
        "/watched/report.txt" "/dest/report.txt" true =
      Except.ok (setFs
        (removeFs [("/watched/report.txt", "new"), ("/dest/report.txt", "old")]
          "/watched/report.txt")
        "/dest/report.txt" "new")
    ∧ lookupFs (setFs
        (removeFs [("/watched/report.txt", "new"), ("/dest/report.txt", "old")]
          "/watched/report.txt")
        "/dest/report.txt" "new") "/dest/report.txt" = some "new"
    ∧ countAttempts (moveFile "/watched/report.txt" "/dest/report.txt"
        alwaysOkOracle 0 3).1 = 1 :=
  ⟨by decide, by decide,
   (c4_unconditional_overwrite
      [("/watched/report.txt", "new"), ("/dest/report.txt", "old")]
      "/watched/report.txt" "/dest/report.txt" "new" "old"
      (by decide) (by decide) alwaysOkOracle 0 3).1,
   (c4_unconditional_overwrite
      [("/watched/report.txt", "new"), ("/dest/report.txt", "old")]
      "/watched/report.txt" "/dest/report.txt" "new" "old"
      (by decide) (by decide) alwaysOkOracle 0 3).2.1,
   ((c4_unconditional_overwrite
      [("/watched/report.txt", "new"), ("/dest/report.txt", "old")]
      "/watched/report.txt" "/dest/report.txt" "new" "old"
      (by decide) (by decide) alwaysOkOracle 0 3).2.2.2 rfl).2.1⟩

/-- C5: the watcher is configured with `ignoreInitial`, polling enabled and a
1000 ms polling interval; over any run, the emitted add events are exactly
the files that appeared after the watch started, so a file present initially
(and not re-appearing later) is never reported as an add event and no move is
ever dispatched for it. -/
theorem c5_initial_files_excluded (srcDir destDir fpath : String)
    (initialFiles appearedLater : List String)
    (hin : fpath ∈ initialFiles) (hnot : fpath ∉ appearedLater) :
    (startWatching srcDir destDir).options.ignoreInitial = true
    ∧ (startWatching srcDir destDir).options.usePolling = true
    ∧ (startWatching srcDir destDir).options.interval = 1000
    ∧ emittedAddEvents (startWatching srcDir destDir).options
        initialFiles appearedLater = appearedLater
    ∧ fpath ∉ emittedAddEvents (startWatching srcDir destDir).options
        initialFiles appearedLater
    ∧ ∀ d, Event.dispatchMove fpath d ∉
        addHandlerRun (startWatching srcDir destDir) initialFiles appearedLater := by
  refine ⟨rfl, rfl, rfl, rfl, hnot, ?_⟩
  intro d hmem
  simp [addHandlerRun, emittedAddEvents, startWatching, addHandler,
    List.mem_flatten] at hmem
  obtain ⟨p, hp, hev⟩ := hmem
  exact hnot (hev.1 ▸ hp)

/-- C5, witness: with one file present at watch start and one appearing
later, only the later file is reported, and no move of the initial file is
dispatched. -/
theorem c5_initial_files_excluded_witness :
    ("/watched/old.txt" : String) ∈ ["/watched/old.txt"]
    ∧ ("/watched/old.txt" : String) ∉ ["/watched/new.txt"]
    ∧ emittedAddEvents (startWatching "/watched" "/dest").options
        ["/watched/old.txt"] ["/watched/new.txt"] = ["/watched/new.txt"]
    ∧ Event.dispatchMove "/watched/old.txt" "/dest/old.txt" ∉
        addHandlerRun (startWatching "/watched" "/dest")
          ["/watched/old.txt"] ["/watched/new.txt"] :=
  ⟨by decide, by decide,
   (c5_initial_files_excluded "/watched" "/dest" "/watched/old.txt"
      ["/watched/old.txt"] ["/watched/new.txt"] (by decide) (by decide)).2.2.2.1,
   (c5_initial_files_excluded "/watched" "/dest" "/watched/old.txt"
      ["/watched/old.txt"] ["/watched/new.txt"] (by decide) (by decide)).2.2.2.2.2
     "/dest/old.txt"⟩

/-- C6, counterexample: the claim that a missing/unreadable watch directory
makes the process terminate is false on the code.  At the concrete missing
directory `/missing`, `startWatching` proceeds unconditionally — its whole
startup output is the "Watching directory" `info` line — and the `ENOENT`
error chokidar would surface is handled by producing a single `error` log
line; the complete behaviour contains no `process.exit` (and no watcher
teardown), so the process does not terminate. -/
theorem c6_counterexample_no_fail_fast :
    (startWatching "/missing" "/dest").startupEvents =
      [Event.log ⟨LogLevel.info, "Watching directory: /missing"⟩]
    ∧ (startWatching "/missing" "/dest").onError
        ⟨"ENOENT", "ENOENT: no such file or directory, stat /missing"⟩ =
      [Event.log ⟨LogLevel.error,
        "Watcher error: ENOENT: no such file or directory, stat /missing"⟩]
    ∧ countExitsAndStops ((startWatching "/missing" "/dest").startupEvents
        ++ (startWatching "/missing" "/dest").onError
          ⟨"ENOENT", "ENOENT: no such file or directory, stat /missing"⟩) = 0 := by
  refine ⟨?_, ?_, rfl⟩ <;> decide

/-- C6, amended: if the watch target directory is missing or unreadable when
watching starts, the service does not fail fast: `startWatching` performs no
existence check and starts watching unconditionally (its startup output is
exactly the watching-started `info` line), and any watcher-level error is
only logged at `error` level — no `process.exit`, no watcher teardown, for
any directory and any error. -/
theorem c6_missing_dir_only_logged (srcDir destDir : String) (e : FsError) :
    (startWatching srcDir destDir).watchPath = srcDir
    ∧ (startWatching srcDir destDir).startupEvents =
        [Event.log ⟨LogLevel.info, watchingMsg srcDir⟩]
    ∧ countExitsAndStops (startWatching srcDir destDir).startupEvents = 0
    ∧ (startWatching srcDir destDir).onError e =
        [Event.log ⟨LogLevel.error, watcherErrorMsg e.message⟩]
    ∧ countExitsAndStops ((startWatching srcDir destDir).onError e) = 0 :=
  ⟨rfl, rfl, rfl, rfl, rfl⟩

/-- C7, counterexample: the claim that `moveFile` returns a terminal outcome
value `Success | Failure(reason)` to its caller is false on the code.  At
concrete inputs, a move that succeeds on the first attempt and a move that
fails terminally with permission denied resolve with the very same value —
the promise carries no value at all (`Promise<void>`), so the caller cannot
distinguish terminal success from failure by the returned value. -/
theorem c7_counterexample_void_return :
    (moveFileDefault "/watched/report.txt" "/dest/report.txt" alwaysOkOracle).2 =
      (moveFileDefault "/watched/report.txt" "/dest/report.txt" alwaysDeniedOracle).2
    ∧ (moveFileDefault "/watched/report.txt" "/dest/report.txt" alwaysDeniedOracle).2
        = none :=
  ⟨rfl, rfl⟩

/-- C7, amended: `moveFile(sourcePath, destPath, maxRetries = 3)` resolves
with no outcome value (the source returns `Promise<void>`); terminal success
or failure of the relocation is reported through the log instead — the last
event of every run is either the success `info` line or a terminal failure
`error` line. -/
theorem c7_outcome_reported_via_log (src dest : String)
    (f : Nat → Option FsError) (attempt retries : Nat) :
    (moveFile src dest f attempt retries).2 = none
    ∧ ∃ ev, (moveFile src dest f attempt retries).1.getLast? = some ev
        ∧ isTerminalReport src dest ev := by
  induction retries generalizing attempt with
  | zero =>
    rw [moveFile]
    cases f attempt with
    | none => exact ⟨rfl, _, rfl, Or.inl rfl⟩
    | some e => exact ⟨rfl, _, rfl, Or.inr ⟨e.message, rfl⟩⟩
  | succ n ih =>
    rw [moveFile]
    cases hf : f attempt with
    | none => exact ⟨rfl, _, rfl, Or.inl rfl⟩
    | some e =>
      by_cases h : e.code = "EBUSY"
      · obtain ⟨h2, ev, hlast, hrep⟩ := ih (attempt + 1)
        refine ⟨by simp [h, h2], ev, ?_, hrep⟩
        simp only [h, if_true]
        rw [List.getLast?_append_of_ne_nil _
          (moveFile_trace_ne_nil src dest f (attempt + 1) n)]
        exact hlast
      · exact ⟨by simp [h], Event.log ⟨LogLevel.error, moveErrorMsg e.message⟩,
          by simp [h], Or.inr ⟨e.message, rfl⟩⟩

/-- C8: every filesystem-level observation error surfaced to the watcher's
`error` handler is logged at `error` level and nothing else happens: the
handler's output is exactly one `error` log line, with no `process.exit` and
no watcher teardown, so observation continues — and this handler is exactly
the one `startWatching` registers. -/
theorem c8_watcher_error_only_logged (srcDir destDir : String) (e : FsError) :
    watcherErrorHandler e =
      [Event.log ⟨LogLevel.error, watcherErrorMsg e.message⟩]
    ∧ countLevel (watcherErrorHandler e) LogLevel.error = 1
    ∧ countExitsAndStops (watcherErrorHandler e) = 0
    ∧ (startWatching srcDir destDir).onError = watcherErrorHandler :=
  ⟨rfl, rfl, rfl, rfl⟩

/-- C10: the `add` handler logs the detection and dispatches a move whose
destination is exactly the destination directory joined with the base name
of the detected path — so the moved file keeps its file name; and joining
any directory prefix with a separator-free file name and taking the base
name returns the bare file name, flattening subdirectory structure into the
single destination directory. -/
theorem c10_dest_is_destdir_join_basename (destDir filePath dir name : String)
    (hname : ∀ c ∈ name.data, c ≠ '/') :
    addHandler destDir filePath =
      [Event.log ⟨LogLevel.info, detectedMsg (basename filePath)⟩,
       Event.dispatchMove filePath (joinPath destDir (basename filePath))]
    ∧ basename (joinPath dir name) = name :=
  ⟨rfl, basename_joinPath dir name hname⟩

/-- C10, witness: a file detected at a nested path under the watched
directory is dispatched to the destination directory under its bare file
name. -/
theorem c10_dest_is_destdir_join_basename_witness :
    addHandler "/dest" "/watched/sub/inner/report.txt" =
      [Event.log ⟨LogLevel.info, detectedMsg "report.txt"⟩,
       Event.dispatchMove "/watched/sub/inner/report.txt" "/dest/report.txt"]
    ∧ basename (joinPath "/watched/sub/inner" "report.txt") = "report.txt" :=
  ⟨(c10_dest_is_destdir_join_basename "/dest" "/watched/sub/inner/report.txt"
      "/watched/sub/inner" "report.txt" (by decide)).1,
   (c10_dest_is_destdir_join_basename "/dest" "/watched/sub/inner/report.txt"
      "/watched/sub/inner" "report.txt" (by decide)).2⟩

end FileMover
